import Mathlib

/-!
Shallow embedding of the persistence layer of `src/App.js` (egg-inventory).

The application drives a SQLite table `daily_records`; the embedding models
the table as a list of rows plus the AUTOINCREMENT counter, and each SQL
statement issued by the source as a pure function on that state.

SQL REAL columns are modelled as `Rat`; the `CURRENT_TIMESTAMP` default is
modelled by an explicit `now : Nat` argument to each operation that inserts.
JavaScript number-to-string rendering inside the CSV template literal is
modelled abstractly by `toString` on the numeric value.
-/

namespace EggInventory

/-- One row of the `daily_records` table, full current schema
(`createNewTable`, src/App.js lines 64-81). -/
structure Row where
  id : Nat
  date : String
  produced_eggs : Int
  breakages : Int
  sold_eggs : Int
  price_per_egg : Rat
  credit_amount : Rat
  credit_name : String
  created_at : Nat
deriving DecidableEq, Repr

/-- Table state: rows in rowid (insertion) order, plus the next
AUTOINCREMENT id. -/
structure DB where
  rows : List Row
  nextId : Nat
deriving DecidableEq, Repr

/-- `SELECT * FROM daily_records WHERE date = ?` via `getFirstAsync`
(src/App.js line 229): first row matching the date, in rowid order. -/
def getFirstByDate (db : DB) (d : String) : Option Row :=
  db.rows.find? (fun r => r.date = d)

/-- `saveDailyRecord`'s write (src/App.js lines 190-194):
`INSERT OR REPLACE INTO daily_records (date, produced_eggs, breakages,
sold_eggs, price_per_egg, credit_amount, credit_name) VALUES (...)`.
SQLite REPLACE deletes every row conflicting on the UNIQUE `date` column,
then inserts a fresh row; `id` is not in the column list so the new row
gets the next AUTOINCREMENT id, and `created_at` takes its
`CURRENT_TIMESTAMP` default. -/
def upsertDailyRecord (db : DB) (now : Nat) (d : String)
    (produced breakages sold : Int) (price credit : Rat)
    (creditName : String) : DB :=
  { rows := db.rows.filter (fun r => r.date ≠ d) ++
      [{ id := db.nextId, date := d, produced_eggs := produced,
         breakages := breakages, sold_eggs := sold,
         price_per_egg := price, credit_amount := credit,
         credit_name := creditName, created_at := now }],
    nextId := db.nextId + 1 }

/-- `addCreditOnly`'s database effect (src/App.js lines 229-253): read the
first row for the date; if present, `UPDATE daily_records SET
credit_amount = ?, credit_name = ? WHERE date = ?` with the merged values
(`(existing.credit_amount || 0) + amount` and the comma-joined name, the
given name alone when the stored name is empty/falsy); if absent, plain
`INSERT` of a row with all production fields zero. -/
def addCreditOnly (db : DB) (now : Nat) (d : String)
    (amount : Rat) (name : String) : DB :=
  match getFirstByDate db d with
  | some r =>
    let newAmount := r.credit_amount + amount
    let newName := if r.credit_name = "" then name
                   else r.credit_name ++ ", " ++ name
    { db with rows := db.rows.map (fun row =>
        if row.date = d then
          { row with credit_amount := newAmount, credit_name := newName }
        else row) }
  | none =>
    { rows := db.rows ++
        [{ id := db.nextId, date := d, produced_eggs := 0, breakages := 0,
           sold_eggs := 0, price_per_egg := 0, credit_amount := amount,
           credit_name := name, created_at := now }],
      nextId := db.nextId + 1 }

/-- `deleteRecord` (src/App.js line 283): `DELETE FROM daily_records WHERE
id = ?`; returns the new state together with the number of rows affected. -/
def deleteRecord (db : DB) (i : Nat) : DB × Nat :=
  ({ db with rows := db.rows.filter (fun r => r.id ≠ i) },
   (db.rows.filter (fun r => r.id = i)).length)

/-- SQL `SUM` over a column: `NULL` (here `none`) on an empty set of rows,
otherwise the sum. All modelled column values are non-null. -/
def sqlSum (l : List Rat) : Option Rat :=
  if l.isEmpty then none else some l.sum

/-- SQL `COALESCE(x, d)`. -/
def coalesce (x : Option Rat) (d : Rat) : Rat :=
  match x with
  | some v => v
  | none => d

/-- Result shape of `calculateSummary`'s aggregate query. -/
structure Summary where
  totalProduced : Rat
  totalBreakages : Rat
  totalSold : Rat
  totalCashSales : Rat
  totalCredits : Rat
deriving DecidableEq, Repr

/-- `calculateSummary` (src/App.js lines 138-145): one aggregate query,
each total a `COALESCE(SUM(...), 0)`; cash sales sums the per-row product
`sold_eggs * price_per_egg`. -/
def calculateSummary (db : DB) : Summary :=
  { totalProduced := coalesce (sqlSum (db.rows.map (fun r => (r.produced_eggs : Rat)))) 0,
    totalBreakages := coalesce (sqlSum (db.rows.map (fun r => (r.breakages : Rat)))) 0,
    totalSold := coalesce (sqlSum (db.rows.map (fun r => (r.sold_eggs : Rat)))) 0,
    totalCashSales := coalesce (sqlSum (db.rows.map (fun r => (r.sold_eggs : Rat) * r.price_per_egg))) 0,
    totalCredits := coalesce (sqlSum (db.rows.map (fun r => r.credit_amount))) 0 }

/-- Date comparison used by `ORDER BY date` (TEXT column, lexicographic). -/
def dateLE (a b : Row) : Prop := a.date ≤ b.date

instance : DecidableRel dateLE := fun a b =>
  inferInstanceAs (Decidable (a.date ≤ b.date))

instance : IsTotal Row dateLE := ⟨fun a b => le_total a.date b.date⟩

instance : IsTrans Row dateLE := ⟨fun _ _ _ h h' => le_trans h h'⟩

/-- `SELECT * FROM daily_records ORDER BY date` (src/App.js line 298):
all rows sorted ascending by the text date. -/
def exportAllRecords (db : DB) : List Row :=
  List.insertionSort dateLE db.rows

/-- The fixed CSV header row (src/App.js line 305). -/
def csvHeader : String :=
  "Date,Produced Eggs,Breakages,Sold Eggs,Remaining Eggs,Price Per Egg,Cash Sales,Credit Amount,Credit Name\n"

/-- One CSV data line without its trailing newline (src/App.js lines
308-311): remaining eggs and cash sales are computed per record, and
`credit_name` is embedded verbatim between two double quotes.  The `|| 0`
guards of the source are identities here since no modelled value is null. -/
def csvRowBody (r : Row) : String :=
  r.date ++ "," ++ toString r.produced_eggs ++ "," ++
  toString r.breakages ++ "," ++ toString r.sold_eggs ++ "," ++
  toString (r.produced_eggs - r.breakages - r.sold_eggs) ++ "," ++
  toString r.price_per_egg ++ "," ++
  toString ((r.sold_eggs : Rat) * r.price_per_egg) ++ "," ++
  toString r.credit_amount ++ ",\"" ++ r.credit_name ++ "\""

/-- `exportData`'s CSV text (src/App.js lines 298-320): header then one
line per record in ascending date order. -/
def exportData (db : DB) : String :=
  csvHeader ++ String.join ((exportAllRecords db).map (fun r => csvRowBody r ++ "\n"))

/-- The caller-visible data fields of a row: everything except the
surrogate `id` and the `created_at` timestamp. -/
def dataProj (r : Row) : String × Int × Int × Int × Rat × Rat × String :=
  (r.date, r.produced_eggs, r.breakages, r.sold_eggs, r.price_per_egg,
   r.credit_amount, r.credit_name)

/-! ### Schema-migration model (`checkAndMigrateSchema`, src/App.js 84-134)

The migration layer works over tables of unknown schema, so here a table is
a column-name list together with rows given as association lists from
column name to SQL value. -/

/-- A SQL value as stored in a dynamically-schemed table. -/
inductive Val where
  | int (i : Int)
  | real (q : Rat)
  | text (s : String)
  | null
deriving DecidableEq, Repr

/-- SQL numeric comparison `v = 0`; `NULL = 0` is not true. -/
def valIsZero : Val → Bool
  | Val.int i => i = 0
  | Val.real q => q = 0
  | _ => false

/-- SQL `v IS NOT NULL`. -/
def valNotNull : Val → Bool
  | Val.null => false
  | _ => true

/-- A table of unknown (possibly legacy) schema. -/
structure MigTable where
  cols : List String
  rows : List (List (String × Val))
deriving DecidableEq, Repr

/-- Value of a column in a row; `null` when absent. -/
def lookupVal (r : List (String × Val)) (c : String) : Val :=
  match r.find? (fun p => p.1 = c) with
  | some p => p.2
  | none => Val.null

/-- Overwrite a column's value in a row. -/
def setVal (r : List (String × Val)) (c : String) (v : Val) :
    List (String × Val) :=
  r.map (fun p => if p.1 = c then (c, v) else p)

/-- The SQL statements `checkAndMigrateSchema` can push. -/
inductive Stmt where
  | addColumn (name : String) (dflt : Val)
  | backfillCredits
deriving DecidableEq, Repr

/-- The statement list `checkAndMigrateSchema` builds (src/App.js lines
90-127) from the introspected column names, in push order: one
`ALTER TABLE ... ADD COLUMN` per missing current column, then — when a
legacy `credits` column is present — another conditional add of
`credit_amount` (re-checking the same stale column list) followed by the
backfill `UPDATE`. -/
def migrationStmts (columnNames : List String) : List Stmt :=
  (if columnNames.contains "sold_eggs" then []
   else [Stmt.addColumn "sold_eggs" (Val.int 0)]) ++
  (if columnNames.contains "credit_amount" then []
   else [Stmt.addColumn "credit_amount" (Val.real 0)]) ++
  (if columnNames.contains "credit_name" then []
   else [Stmt.addColumn "credit_name" (Val.text "")]) ++
  (if columnNames.contains "credits" then
    (if columnNames.contains "credit_amount" then []
     else [Stmt.addColumn "credit_amount" (Val.real 0)]) ++
    [Stmt.backfillCredits]
   else [])

/-- The backfill `UPDATE daily_records SET credit_amount = credits WHERE
credit_amount = 0 AND credits IS NOT NULL` applied to one row. -/
def backfillRow (r : List (String × Val)) : List (String × Val) :=
  if valIsZero (lookupVal r "credit_amount") &&
     valNotNull (lookupVal r "credits") then
    setVal r "credit_amount" (lookupVal r "credits")
  else r

/-- Execute one migration statement against the table; `ADD COLUMN` on an
existing column fails with SQLite's duplicate-column error, and the
backfill fails if either referenced column is absent. -/
def execStmt (t : MigTable) : Stmt → Except String MigTable
  | Stmt.addColumn name dflt =>
    if t.cols.contains name then
      Except.error ("duplicate column name: " ++ name)
    else
      Except.ok { cols := t.cols ++ [name],
                  rows := t.rows.map (fun r => r ++ [(name, dflt)]) }
  | Stmt.backfillCredits =>
    if t.cols.contains "credit_amount" && t.cols.contains "credits" then
      Except.ok { t with rows := t.rows.map backfillRow }
    else
      Except.error "no such column"

/-- Run the pushed statements in order.  Each `db.runAsync` promise is
created eagerly, so every statement executes on the serialized connection
regardless of earlier failures; errors are collected (`Promise.all`
rejects when the list is non-empty). -/
def runStmts (t : MigTable) : List Stmt → MigTable × List String
  | [] => (t, [])
  | s :: rest =>
    match execStmt t s with
    | Except.ok t' => runStmts t' rest
    | Except.error e =>
      let res := runStmts t rest
      (res.1, e :: res.2)

/-- `checkAndMigrateSchema` (src/App.js lines 84-134): introspect the
column list, build the migration statements, run them.  The returned
string list holds the errors of failed statements (empty iff the
migration promise resolves). -/
def checkAndMigrateSchema (t : MigTable) : MigTable × List String :=
  runStmts t (migrationStmts t.cols)

/-! ### CSV record grammar (for the export claims)

A reference RFC-4180 parser for a single record: fields separated by
commas, a field either raw (no quote, comma or newline) or quoted with
embedded quotes doubled.  Used to judge well-formedness of the lines
`exportData` produces; fuel-indexed to keep the recursion structural. -/

/-- Parse the remainder of a quoted field (the opening quote already
consumed): returns the field content and the text after the closing
quote, or `none` if the field never terminates. -/
def parseQuotedF : Nat → List Char → Option (List Char × List Char)
  | 0, _ => none
  | _ + 1, [] => none
  | fuel + 1, c :: rest =>
    if c = '"' then
      match rest with
      | '"' :: rest2 =>
        (parseQuotedF fuel rest2).map (fun p => ('"' :: p.1, p.2))
      | _ => some ([], rest)
    else
      (parseQuotedF fuel rest).map (fun p => (c :: p.1, p.2))

/-- Parse a comma-separated list of fields to end of input. -/
def parseFieldsF : Nat → List Char → Option (List (List Char))
  | 0, _ => none
  | fuel + 1, cs =>
    match cs with
    | '"' :: rest =>
      match parseQuotedF (fuel + 1) rest with
      | none => none
      | some (f, []) => some [f]
      | some (f, ',' :: rest2) =>
        (parseFieldsF fuel rest2).map (fun fs => f :: fs)
      | some _ => none
    | _ =>
      let raw := cs.takeWhile (fun c => c ≠ ',')
      if raw.any (fun c => c = '"' || c = '\n') then none
      else
        match cs.dropWhile (fun c => c ≠ ',') with
        | [] => some [raw]
        | _ :: rest2 =>
          (parseFieldsF fuel rest2).map (fun fs => raw :: fs)

/-- Parse one CSV record (a line without its newline) into its fields;
`none` when the line is not a well-formed CSV record. -/
def parseCSVRecord (s : String) : Option (List String) :=
  (parseFieldsF (s.length + 1) s.data).map
    (fun fs => fs.map (fun cs => String.mk cs))

/-- The nine field values a reader of the export is intended to recover
from a record's line. -/
def intendedFields (r : Row) : List String :=
  [r.date, toString r.produced_eggs, toString r.breakages,
   toString r.sold_eggs,
   toString (r.produced_eggs - r.breakages - r.sold_eggs),
   toString r.price_per_egg,
   toString ((r.sold_eggs : Rat) * r.price_per_egg),
   toString r.credit_amount, r.credit_name]

/-! ### Shared helper lemmas -/

lemma coalesce_sqlSum (l : List Rat) : coalesce (sqlSum l) 0 = l.sum := by
  cases l with
  | nil => rfl
  | cons a t => simp [sqlSum, coalesce]

lemma filter_date_of_filter_ne (l : List Row) (d : String) :
    ((l.filter fun r => r.date ≠ d).filter fun r => r.date = d) = [] := by
  simp only [List.filter_filter]
  rw [List.filter_eq_nil_iff]
  intro a _
  by_cases h : a.date = d <;> simp [h]

lemma filter_ne_idem (l : List Row) (d : String) :
    ((l.filter fun r => r.date ≠ d).filter fun r => r.date ≠ d)
      = l.filter fun r => r.date ≠ d := by
  simp [List.filter_filter]

lemma filter_map_update (l : List Row) (d : String) (f : Row → Row)
    (hf : ∀ r, (f r).date = r.date) :
    ((l.map fun r => if r.date = d then f r else r).filter
        fun r => r.date = d)
      = (l.filter fun r => r.date = d).map f := by
  induction l with
  | nil => rfl
  | cons a t ih =>
    by_cases h : a.date = d
    · simp [List.filter_cons, h, hf, ih]
    · simp [List.filter_cons, h, ih]

lemma filter_of_find?_none (l : List Row) (d : String)
    (h : l.find? (fun r => r.date = d) = none) :
    l.filter (fun r => r.date = d) = [] := by
  have hall := List.find?_eq_none.mp h
  exact List.filter_eq_nil_iff.mpr hall

/-! ### Concrete inputs used by witnesses and counterexamples -/

/-- The two records of the spec's worked summary example. -/
def exRow1 : Row :=
  { id := 1, date := "2024-01-01", produced_eggs := 10, breakages := 1,
    sold_eggs := 5, price_per_egg := 2, credit_amount := 3,
    credit_name := "", created_at := 10 }

def exRow2 : Row :=
  { id := 2, date := "2024-01-02", produced_eggs := 20, breakages := 0,
    sold_eggs := 10, price_per_egg := 3 / 2, credit_amount := 0,
    credit_name := "", created_at := 11 }

def summaryExampleDB : DB := { rows := [exRow1, exRow2], nextId := 3 }

/-- A one-row table used by the upsert claims. -/
def rowC3 : Row :=
  { id := 1, date := "2024-02-01", produced_eggs := 10, breakages := 0,
    sold_eggs := 5, price_per_egg := 2, credit_amount := 0,
    credit_name := "", created_at := 100 }

def dbC3 : DB := { rows := [rowC3], nextId := 2 }

/-! ### Claim theorems -/

/-- C5: `calculateSummary` returns the per-column sums with cash sales summed
as the per-row product `sold_eggs * price_per_egg`; over an empty table every
total is exactly zero; and on the spec's worked example the per-row-product
cash total (25) differs from the product of the two independent sums. -/
theorem calculateSummary_totals (db : DB) :
    (calculateSummary db =
      { totalProduced := (db.rows.map fun r => (r.produced_eggs : Rat)).sum,
        totalBreakages := (db.rows.map fun r => (r.breakages : Rat)).sum,
        totalSold := (db.rows.map fun r => (r.sold_eggs : Rat)).sum,
        totalCashSales :=
          (db.rows.map fun r => (r.sold_eggs : Rat) * r.price_per_egg).sum,
        totalCredits := (db.rows.map fun r => r.credit_amount).sum })
  ∧ (db.rows = [] → calculateSummary db = ⟨0, 0, 0, 0, 0⟩)
  ∧ (calculateSummary summaryExampleDB).totalCashSales = 25
  ∧ (calculateSummary summaryExampleDB).totalCashSales ≠
      ((summaryExampleDB.rows.map fun r => (r.sold_eggs : Rat)).sum *
        (summaryExampleDB.rows.map fun r => r.price_per_egg).sum) := by
  refine ⟨?_, ?_, ?_, ?_⟩
  · simp [calculateSummary, coalesce_sqlSum]
  · intro h
    simp [calculateSummary, h, sqlSum, coalesce]
  · norm_num [calculateSummary, summaryExampleDB, exRow1, exRow2, sqlSum,
      coalesce]
  · norm_num [calculateSummary, summaryExampleDB, exRow1, exRow2, sqlSum,
      coalesce]

/-- Witness for C5: the empty-table case at a concrete state. -/
theorem calculateSummary_totals_witness :
    calculateSummary { rows := [], nextId := 1 } = ⟨0, 0, 0, 0, 0⟩ :=
  (calculateSummary_totals { rows := [], nextId := 1 }).2.1 rfl

/-- C2: after `upsertDailyRecord` exactly one record for the date exists and
its data fields equal the given values; records for other dates are exactly
the previous ones; and a repeated identical call leaves the stored data
fields (everything but the store-assigned `id`/`created_at`) unchanged. -/
theorem upsertDailyRecord_replaces (db : DB) (now now' : Nat) (d : String)
    (p b s : Int) (price ca : Rat) (cn : String) (hpre : s ≤ p - b) :
    (((upsertDailyRecord db now d p b s price ca cn).rows.filter
        fun r => r.date = d).map dataProj = [(d, p, b, s, price, ca, cn)])
  ∧ (∀ r ∈ (upsertDailyRecord db now d p b s price ca cn).rows,
      r.date ≠ d → r ∈ db.rows)
  ∧ (∀ r ∈ db.rows, r.date ≠ d →
      r ∈ (upsertDailyRecord db now d p b s price ca cn).rows)
  ∧ ((upsertDailyRecord (upsertDailyRecord db now d p b s price ca cn)
        now' d p b s price ca cn).rows.map dataProj
      = (upsertDailyRecord db now d p b s price ca cn).rows.map dataProj) := by
  refine ⟨?_, ?_, ?_, ?_⟩
  · simp [upsertDailyRecord, List.filter_append, filter_date_of_filter_ne,
      dataProj]
  · intro r hr hne
    simp only [upsertDailyRecord, List.mem_append, List.mem_filter,
      List.mem_singleton] at hr
    rcases hr with ⟨h1, _⟩ | rfl
    · exact h1
    · exact absurd rfl hne
  · intro r hr hne
    simp only [upsertDailyRecord, List.mem_append, List.mem_filter]
    exact Or.inl ⟨hr, by simp [hne]⟩
  · simp [upsertDailyRecord, List.filter_append, filter_ne_idem, dataProj]

/-- Witness for C2 at a concrete state. -/
theorem upsertDailyRecord_replaces_witness :
    ((upsertDailyRecord dbC3 200 "2024-02-01" 12 0 5 2 0 "").rows.filter
        fun r => r.date = "2024-02-01").map dataProj
      = [("2024-02-01", 12, 0, 5, 2, 0, "")] :=
  (upsertDailyRecord_replaces dbC3 200 201 "2024-02-01" 12 0 5 2 0 ""
    (by decide)).1

/-- C3 counterexample: with one stored record (id 1, createdAt 100) for
2024-02-01, the upsert for that date leaves a record with id 2 and
createdAt 200 — `INSERT OR REPLACE` does not preserve either field. -/
theorem upsert_id_createdAt_cex :
    ((getFirstByDate dbC3 "2024-02-01").map Row.id = some 1)
  ∧ ((getFirstByDate dbC3 "2024-02-01").map Row.created_at = some 100)
  ∧ ((getFirstByDate (upsertDailyRecord dbC3 200 "2024-02-01" 12 0 5 2 0 "")
        "2024-02-01").map Row.id = some 2)
  ∧ ((getFirstByDate (upsertDailyRecord dbC3 200 "2024-02-01" 12 0 5 2 0 "")
        "2024-02-01").map Row.created_at = some 200) := by
  decide

/-- C3 as amended: `upsertDailyRecord` for an existing date replaces the
row, so the record for that date carries the next surrogate id and the
write-time `created_at`; records for other dates keep theirs. -/
theorem upsert_fresh_id_createdAt (db : DB) (now : Nat) (d : String)
    (p b s : Int) (price ca : Rat) (cn : String) :
    (∀ r ∈ (upsertDailyRecord db now d p b s price ca cn).rows,
      r.date = d → r.id = db.nextId ∧ r.created_at = now)
  ∧ (∀ r ∈ db.rows, r.date ≠ d →
      r ∈ (upsertDailyRecord db now d p b s price ca cn).rows)
  ∧ ((upsertDailyRecord db now d p b s price ca cn).nextId = db.nextId + 1) := by
  refine ⟨?_, ?_, rfl⟩
  · intro r hr hd
    simp only [upsertDailyRecord, List.mem_append, List.mem_filter,
      List.mem_singleton] at hr
    rcases hr with ⟨_, hne⟩ | rfl
    · exact absurd hd (by simpa using hne)
    · exact ⟨rfl, rfl⟩
  · intro r hr hne
    simp only [upsertDailyRecord, List.mem_append, List.mem_filter]
    exact Or.inl ⟨hr, by simp [hne]⟩

/-- Witness for the amended C3: a record for another date survives an
upsert with its fields intact. -/
theorem upsert_fresh_id_createdAt_witness :
    rowC3 ∈ (upsertDailyRecord dbC3 200 "2024-03-01" 1 0 0 1 0 "").rows :=
  (upsert_fresh_id_createdAt dbC3 200 "2024-03-01" 1 0 0 1 0 "").2.1
    rowC3 (by decide) (by decide)

/-- C7: `addCreditOnly` on a date with no existing record inserts exactly
one record for that date with all production and sales fields zero and the
given credit fields; every prior record is still present, and exactly one
row was added. -/
theorem addCreditOnly_inserts_fresh (db : DB) (now : Nat) (d : String)
    (amount : Rat) (name : String)
    (hamt : 0 < amount) (hname : name ≠ "")
    (hnone : getFirstByDate db d = none) :
    (((addCreditOnly db now d amount name).rows.filter
        fun r => r.date = d).map dataProj = [(d, 0, 0, 0, 0, amount, name)])
  ∧ ((addCreditOnly db now d amount name).rows.length = db.rows.length + 1)
  ∧ (∀ r ∈ db.rows, r ∈ (addCreditOnly db now d amount name).rows) := by
  have hall : ∀ r ∈ db.rows, ¬ r.date = d := by
    intro r hr
    have := List.find?_eq_none.mp hnone r hr
    simpa using this
  have hfilter : db.rows.filter (fun r => r.date = d) = [] :=
    List.filter_eq_nil_iff.mpr (by simpa using hall)
  refine ⟨?_, ?_, ?_⟩
  · simp [addCreditOnly, hnone, List.filter_append, hfilter, dataProj]
  · simp [addCreditOnly, hnone]
  · intro r hr
    simp only [addCreditOnly, hnone, List.mem_append]
    exact Or.inl hr

/-- Witness for C7 at the empty table. -/
theorem addCreditOnly_inserts_fresh_witness :
    (((addCreditOnly { rows := [], nextId := 1 } 50 "2024-04-01" 5
        "Ann").rows.filter fun r => r.date = "2024-04-01").map dataProj
      = [("2024-04-01", 0, 0, 0, 0, 5, "Ann")]) :=
  (addCreditOnly_inserts_fresh { rows := [], nextId := 1 } 50 "2024-04-01" 5
    "Ann" (by norm_num) (by decide) (by decide)).1

/-- C1: on a date with a stored record, `addCreditOnly` leaves exactly one
record for the date, with creditAmount increased by the given amount and
creditName comma-joined (or the given name alone when the stored name is
empty), while id, date, production, sales, price and created_at of every
row are untouched; and two `addCreditOnly` calls on a fresh date with
amounts a, b and names X, Y leave a single record with creditAmount a + b
and creditName X, Y. -/
theorem addCreditOnly_accumulates :
    (∀ (db : DB) (now : Nat) (d : String) (bAmt : Rat) (Y : String)
        (r0 : Row),
      0 < bAmt → Y ≠ "" → getFirstByDate db d = some r0 →
      (db.rows.filter fun r => r.date = d).length = 1 →
      (((addCreditOnly db now d bAmt Y).rows.filter
            fun r => r.date = d).map (fun r => (r.credit_amount, r.credit_name))
          = [(r0.credit_amount + bAmt,
              if r0.credit_name = "" then Y
              else r0.credit_name ++ ", " ++ Y)])
        ∧ ((addCreditOnly db now d bAmt Y).rows.map
              (fun r => (r.id, r.date, r.produced_eggs, r.breakages,
                r.sold_eggs, r.price_per_egg, r.created_at))
            = db.rows.map (fun r => (r.id, r.date, r.produced_eggs,
                r.breakages, r.sold_eggs, r.price_per_egg, r.created_at))))
  ∧ (∀ (db : DB) (now now' : Nat) (d : String) (a bAmt : Rat) (X Y : String),
      0 < a → 0 < bAmt → X ≠ "" → Y ≠ "" → getFirstByDate db d = none →
      (((addCreditOnly (addCreditOnly db now d a X) now' d bAmt Y).rows.filter
            fun r => r.date = d).map
          (fun r => (r.credit_amount, r.credit_name))
        = [(a + bAmt, X ++ ", " ++ Y)])) := by
  constructor
  · intro db now d bAmt Y r0 hb hY hfind huniq
    obtain ⟨rd, hrd⟩ := List.length_eq_one.mp huniq
    constructor
    · simp only [addCreditOnly]
      rw [hfind]
      simp only
      rw [filter_map_update db.rows d
        (fun row => ({ row with
          credit_amount := r0.credit_amount + bAmt,
          credit_name := (if r0.credit_name = "" then Y
            else r0.credit_name ++ ", " ++ Y) })) (fun r => rfl), hrd]
      simp
    · simp only [addCreditOnly]
      rw [hfind]
      simp only [List.map_map]
      apply List.map_congr_left
      intro r _
      by_cases h : r.date = d <;> simp [h]
  · intro db now now' d a bAmt X Y ha hb hX hY hnone
    have h1 : addCreditOnly db now d a X
        = { rows := db.rows ++
              [{ id := db.nextId, date := d, produced_eggs := 0,
                 breakages := 0, sold_eggs := 0, price_per_egg := 0,
                 credit_amount := a, credit_name := X, created_at := now }],
            nextId := db.nextId + 1 } := by
      simp only [addCreditOnly]
      rw [hnone]
    rw [h1]
    have hfind2 : getFirstByDate
        { rows := db.rows ++
            [{ id := db.nextId, date := d, produced_eggs := 0,
               breakages := 0, sold_eggs := 0, price_per_egg := 0,
               credit_amount := a, credit_name := X, created_at := now }],
          nextId := db.nextId + 1 } d
        = some { id := db.nextId, date := d, produced_eggs := 0,
                 breakages := 0, sold_eggs := 0, price_per_egg := 0,
                 credit_amount := a, credit_name := X, created_at := now } := by
      simp only [getFirstByDate, List.find?_append]
      rw [show db.rows.find? (fun r => decide (r.date = d)) = none from hnone]
      simp
    simp only [addCreditOnly]
    rw [hfind2]
    simp only
    rw [filter_map_update
      (db.rows ++
        [({ id := db.nextId, date := d, produced_eggs := 0, breakages := 0,
            sold_eggs := 0, price_per_egg := 0, credit_amount := a,
            credit_name := X, created_at := now } : Row)]) d
      (fun row => ({ row with
        credit_amount := a + bAmt,
        credit_name := (if X = "" then Y else X ++ ", " ++ Y) }))
      (fun r => rfl)]
    rw [List.filter_append, filter_of_find?_none db.rows d hnone]
    simp [hX]

/-- Witness for C1: merging a second credit into dbA's stored record. -/
theorem addCreditOnly_accumulates_witness :
    (((addCreditOnly dbC3 300 "2024-02-01" 4 "Bea").rows.filter
        fun r => r.date = "2024-02-01").map
      (fun r => (r.credit_amount, r.credit_name)))
      = [(rowC3.credit_amount + 4, "Bea")] := by
  have h := (addCreditOnly_accumulates.1 dbC3 300 "2024-02-01" 4 "Bea" rowC3
    (by norm_num) (by decide) (by decide) (by decide)).1
  simpa [rowC3] using h

/-- Rows used by the delete-claim witness. -/
def rowD1 : Row :=
  { id := 1, date := "2024-05-01", produced_eggs := 1, breakages := 0,
    sold_eggs := 0, price_per_egg := 1, credit_amount := 0,
    credit_name := "", created_at := 10 }

def rowD2 : Row :=
  { id := 2, date := "2024-05-02", produced_eggs := 2, breakages := 0,
    sold_eggs := 0, price_per_egg := 1, credit_amount := 0,
    credit_name := "", created_at := 11 }

def dbD : DB := { rows := [rowD1, rowD2], nextId := 3 }

/-- C9: `deleteRecord` removes exactly the rows with the given id and
reports the affected count; on an absent id it succeeds with zero rows
affected and the state unchanged; when ids are distinct and the id is
present, exactly that one record goes and every other record stays. -/
theorem deleteRecord_spec (db : DB) (i : Nat) :
    ((deleteRecord db i).1.rows = db.rows.filter fun r => r.id ≠ i)
  ∧ ((deleteRecord db i).2 = (db.rows.filter fun r => r.id = i).length)
  ∧ ((∀ r ∈ db.rows, r.id ≠ i) → deleteRecord db i = (db, 0))
  ∧ (∀ r0 ∈ db.rows, r0.id = i → (db.rows.map Row.id).Nodup →
      ((deleteRecord db i).2 = 1
        ∧ r0 ∉ (deleteRecord db i).1.rows
        ∧ ∀ r ∈ db.rows, r.id ≠ i → r ∈ (deleteRecord db i).1.rows)) := by
  refine ⟨rfl, rfl, ?_, ?_⟩
  · intro h
    have h1 : db.rows.filter (fun r => r.id ≠ i) = db.rows :=
      List.filter_eq_self.mpr (by intro a ha; simpa using h a ha)
    have h2 : db.rows.filter (fun r => r.id = i) = [] :=
      List.filter_eq_nil_iff.mpr (by intro a ha; simpa using h a ha)
    show ({ db with rows := db.rows.filter (fun r => r.id ≠ i) },
      (db.rows.filter (fun r => r.id = i)).length) = (db, 0)
    rw [h1, h2]
    rfl
  · intro r0 hr0 hid hnodup
    refine ⟨?_, ?_, ?_⟩
    · have hcount : (db.rows.map Row.id).count i = 1 :=
        List.count_eq_one_of_mem hnodup (List.mem_map.mpr ⟨r0, hr0, hid⟩)
      have hchain : (db.rows.map Row.id).count i
          = (db.rows.filter fun r => r.id = i).length := by
        simp only [List.count, List.countP_eq_length_filter]
        rw [List.filter_map, List.length_map]
        apply congrArg List.length
        apply List.filter_congr
        intro a _
        simp [Function.comp, Bool.beq_eq_decide_eq]
      show (db.rows.filter fun r => r.id = i).length = 1
      rw [← hchain, hcount]
    · simp [deleteRecord, List.mem_filter, hid]
    · intro r hr hne
      simp only [deleteRecord, List.mem_filter]
      exact ⟨hr, by simpa using hne⟩

/-- Witness for C9: deleting an absent id is a no-op with zero rows
affected; deleting a present id affects one row. -/
theorem deleteRecord_spec_witness :
    (deleteRecord dbD 5 = (dbD, 0)) ∧ ((deleteRecord dbD 1).2 = 1) := by
  constructor
  · exact (deleteRecord_spec dbD 5).2.2.1 (by decide)
  · exact ((deleteRecord_spec dbD 1).2.2.2 rowD1 (by decide) rfl
      (by decide)).1

lemma lookupVal_append_ne (r tail : List (String × Val)) (c : String)
    (h : ∀ p ∈ tail, p.1 ≠ c) : lookupVal (r ++ tail) c = lookupVal r c := by
  unfold lookupVal
  rw [List.find?_append]
  cases hfind : r.find? (fun p => p.1 = c) with
  | some v => simp
  | none =>
    have htail : tail.find? (fun p => decide (p.1 = c)) = none :=
      List.find?_eq_none.mpr (by intro p hp; simpa using h p hp)
    simp [htail]

/-- An existing table in the oldest schema the migration handles: no
sold_eggs, credit_amount, credit_name and no legacy credits column. -/
def oldTable : MigTable :=
  { cols := ["id", "date", "produced_eggs", "breakages", "price_per_egg",
      "created_at"],
    rows := [[("id", Val.int 1), ("date", Val.text "2023-01-01"),
      ("produced_eggs", Val.int 5), ("breakages", Val.int 1),
      ("price_per_egg", Val.real 2), ("created_at", Val.int 50)]] }

/-- C6: against a table missing sold_eggs, credit_amount and credit_name
(and with no legacy credits column) the migration succeeds, appends exactly
the three columns with their defaults (0, 0, empty string), leaves every
other column of every row unchanged, and a second run is a no-op with no
duplicate-column error. -/
theorem checkAndMigrateSchema_adds_missing (t : MigTable)
    (h1 : t.cols.contains "sold_eggs" = false)
    (h2 : t.cols.contains "credit_amount" = false)
    (h3 : t.cols.contains "credit_name" = false)
    (h4 : t.cols.contains "credits" = false) :
    ((checkAndMigrateSchema t).2 = [])
  ∧ ((checkAndMigrateSchema t).1.cols
      = t.cols ++ ["sold_eggs", "credit_amount", "credit_name"])
  ∧ ((checkAndMigrateSchema t).1.rows
      = t.rows.map (fun r => r ++ [("sold_eggs", Val.int 0),
          ("credit_amount", Val.real 0), ("credit_name", Val.text "")]))
  ∧ (∀ r ∈ t.rows, ∀ c : String, c ≠ "sold_eggs" → c ≠ "credit_amount" →
      c ≠ "credit_name" →
      lookupVal (r ++ [("sold_eggs", Val.int 0), ("credit_amount", Val.real 0),
        ("credit_name", Val.text "")]) c = lookupVal r c)
  ∧ (checkAndMigrateSchema (checkAndMigrateSchema t).1
      = ((checkAndMigrateSchema t).1, [])) := by
  have hm1 : "sold_eggs" ∉ t.cols := by simpa using h1
  have hm2 : "credit_amount" ∉ t.cols := by simpa using h2
  have hm3 : "credit_name" ∉ t.cols := by simpa using h3
  have hm4 : "credits" ∉ t.cols := by simpa using h4
  have hstmts : migrationStmts t.cols
      = [Stmt.addColumn "sold_eggs" (Val.int 0),
         Stmt.addColumn "credit_amount" (Val.real 0),
         Stmt.addColumn "credit_name" (Val.text "")] := by
    simp [migrationStmts, hm1, hm2, hm3, hm4]
  have hres : checkAndMigrateSchema t
      = ({ cols := t.cols ++ ["sold_eggs", "credit_amount", "credit_name"],
           rows := t.rows.map (fun r => r ++ [("sold_eggs", Val.int 0),
             ("credit_amount", Val.real 0),
             ("credit_name", Val.text "")]) }, []) := by
    unfold checkAndMigrateSchema
    rw [hstmts]
    simp [runStmts, execStmt, List.mem_append, hm1, hm2, hm3,
      List.map_map, Function.comp, List.append_assoc]
  refine ⟨by rw [hres], by rw [hres], by rw [hres], ?_, ?_⟩
  · intro r _ c hc1 hc2 hc3
    apply lookupVal_append_ne
    intro p hp
    simp only [List.mem_cons, List.mem_singleton, List.not_mem_nil] at hp
    rcases hp with rfl | rfl | rfl | hfalse
    · exact fun hh => hc1 hh.symm
    · exact fun hh => hc2 hh.symm
    · exact fun hh => hc3 hh.symm
    · exact absurd hfalse (by simp)
  · have hstmts2 : migrationStmts
        (t.cols ++ ["sold_eggs", "credit_amount", "credit_name"]) = [] := by
      simp [migrationStmts, List.mem_append, hm4]
    rw [hres]
    unfold checkAndMigrateSchema
    rw [hstmts2]
    rfl

/-- Witness for C6 at a concrete legacy table. -/
theorem checkAndMigrateSchema_adds_missing_witness :
    ((checkAndMigrateSchema oldTable).2 = [])
  ∧ (checkAndMigrateSchema (checkAndMigrateSchema oldTable).1
      = ((checkAndMigrateSchema oldTable).1, [])) :=
  ⟨(checkAndMigrateSchema_adds_missing oldTable rfl rfl rfl rfl).1,
   (checkAndMigrateSchema_adds_missing oldTable rfl rfl rfl rfl).2.2.2.2⟩

/-- A table from the even older schema that still has the legacy `credits`
column but no `credit_amount`. -/
def legacyCreditsTable : MigTable :=
  { cols := ["id", "date", "produced_eggs", "breakages", "price_per_egg",
      "credits", "created_at"],
    rows := [[("id", Val.int 1), ("date", Val.text "2023-01-01"),
      ("produced_eggs", Val.int 5), ("breakages", Val.int 0),
      ("price_per_egg", Val.real 2), ("credits", Val.real 7),
      ("created_at", Val.int 50)]] }

/-- C4 (code bug): on a table with a legacy `credits` column and no
`credit_amount`, `checkAndMigrateSchema` pushes the `ADD COLUMN
credit_amount` statement twice (both guards test the same stale column
list), so the second statement fails with SQLite's duplicate-column error
and the migration promise rejects; the column still ends up added once and
the backfill from `credits` still applies. -/
theorem legacy_credits_duplicate_add :
    ((migrationStmts legacyCreditsTable.cols).count
        (Stmt.addColumn "credit_amount" (Val.real 0)) = 2)
  ∧ ((checkAndMigrateSchema legacyCreditsTable).2
      = ["duplicate column name: credit_amount"])
  ∧ ((checkAndMigrateSchema legacyCreditsTable).1.cols.count
        "credit_amount" = 1)
  ∧ ((checkAndMigrateSchema legacyCreditsTable).1.rows.map
        (fun r => lookupVal r "credit_amount") = [Val.real 7]) := by
  refine ⟨by decide, by decide, by decide, by decide⟩

/-- C8: the export reads all rows in ascending date order — the returned
sequence is a permutation of the table sorted by the text date, whatever
the insertion order was — and the CSV text is the fixed header followed by
one line per record in that order, with Remaining Eggs computed as
produced - breakages - sold, Cash Sales as sold * price, and credit_name
wrapped in double quotes. -/
theorem exportData_sorted_format (db : DB) :
    ((exportAllRecords db).Perm db.rows)
  ∧ (List.Sorted dateLE (exportAllRecords db))
  ∧ (exportData db
      = csvHeader ++ String.join ((exportAllRecords db).map
          (fun r => csvRowBody r ++ "\n")))
  ∧ (∀ r : Row, csvRowBody r
      = r.date ++ "," ++ toString r.produced_eggs ++ ","
        ++ toString r.breakages ++ "," ++ toString r.sold_eggs ++ ","
        ++ toString (r.produced_eggs - r.breakages - r.sold_eggs) ++ ","
        ++ toString r.price_per_egg ++ ","
        ++ toString ((r.sold_eggs : Rat) * r.price_per_egg) ++ ","
        ++ toString r.credit_amount ++ ",\"" ++ r.credit_name ++ "\"") :=
  ⟨List.perm_insertionSort dateLE db.rows,
   List.sorted_insertionSort dateLE db.rows, rfl, fun _ => rfl⟩

/-- A record whose credit_name holds one unpaired double quote. -/
def rowUnpaired : Row :=
  { id := 3, date := "2024-01-04", produced_eggs := 0, breakages := 0,
    sold_eggs := 0, price_per_egg := 0, credit_amount := 0,
    credit_name := "He said \"pay", created_at := 12 }

/-- A record whose credit_name holds an RFC-style doubled double quote. -/
def rowPairedQuote : Row :=
  { id := 4, date := "2024-01-02", produced_eggs := 0, breakages := 0,
    sold_eggs := 0, price_per_egg := 0, credit_amount := 0,
    credit_name := "a\"\"b", created_at := 13 }

/-- Two credit-only additions for a fresh date, names Alice then Bob. -/
def historyMerged : DB :=
  addCreditOnly (addCreditOnly { rows := [], nextId := 1 } 100
    "2024-01-03" 5 "Alice") 101 "2024-01-03" 7 "Bob"

/-- One credit-only addition whose single customer name contains ", ". -/
def historySingle : DB :=
  addCreditOnly { rows := [], nextId := 1 } 100 "2024-01-03" 12 "Alice, Bob"

lemma csvRowBody_rowPairedQuote :
    csvRowBody rowPairedQuote = "2024-01-02,0,0,0,0,0,0,0,\"a\"\"b\"" := by
  have hmul : ((rowPairedQuote.sold_eggs : Rat)
      * rowPairedQuote.price_per_egg) = 0 := by
    norm_num [rowPairedQuote]
  unfold csvRowBody
  rw [hmul]
  rfl

/-- C10 counterexample: a record whose credit_name contains double quotes
(as the RFC-escaped pair in "a""b") nevertheless produces a row that IS a
well-formed nine-field CSV record — it merely decodes to a different
name — so the claim's "for every record whose credit_name contains a
double-quote character the produced row is not a well-formed CSV record"
fails at this input. -/
theorem export_quote_wellformed_cex :
    ('"' ∈ rowPairedQuote.credit_name.data)
  ∧ (parseCSVRecord (csvRowBody rowPairedQuote)
      = some ["2024-01-02", "0", "0", "0", "0", "0", "0", "0", "a\"b"]) := by
  constructor
  · decide
  · rw [csvRowBody_rowPairedQuote]
    decide

lemma csvRowBody_rowUnpaired :
    csvRowBody rowUnpaired = "2024-01-04,0,0,0,0,0,0,0,\"He said \"pay\"" := by
  have hmul : ((rowUnpaired.sold_eggs : Rat)
      * rowUnpaired.price_per_egg) = 0 := by
    norm_num [rowUnpaired]
  unfold csvRowBody
  rw [hmul]
  rfl

/-- C10 as amended: the export embeds credit_name verbatim between two
double quotes with no escaping of any kind; hence a credit_name with an
unpaired double quote yields a line that is not parseable as a CSV record,
a credit_name with doubled quotes yields a well-formed line that parses
back to a different name, and a credit_name containing ", " is
indistinguishable in the export text from two merged customer names. -/
theorem export_no_escaping :
    (∀ r : Row, csvRowBody r
      = r.date ++ "," ++ toString r.produced_eggs ++ ","
        ++ toString r.breakages ++ "," ++ toString r.sold_eggs ++ ","
        ++ toString (r.produced_eggs - r.breakages - r.sold_eggs) ++ ","
        ++ toString r.price_per_egg ++ ","
        ++ toString ((r.sold_eggs : Rat) * r.price_per_egg) ++ ","
        ++ toString r.credit_amount ++ ",\"" ++ r.credit_name ++ "\"")
  ∧ (parseCSVRecord (csvRowBody rowUnpaired) = none)
  ∧ (parseCSVRecord (csvRowBody rowPairedQuote)
      ≠ some (intendedFields rowPairedQuote))
  ∧ (historyMerged.rows.map (fun r => r.credit_name) = ["Alice, Bob"])
  ∧ (exportData historyMerged = exportData historySingle) := by
  have hdb : historyMerged = historySingle := by
    have h57 : (5 : Rat) + 7 = 12 := by norm_num
    simp [historyMerged, historySingle, addCreditOnly, getFirstByDate, h57]
  refine ⟨fun _ => rfl, ?_, ?_, ?_, ?_⟩
  · rw [csvRowBody_rowUnpaired]
    decide
  · intro heq
    rw [csvRowBody_rowPairedQuote] at heq
    have hl := Option.some.inj
      (heq.symm.trans (by decide :
        parseCSVRecord "2024-01-02,0,0,0,0,0,0,0,\"a\"\"b\""
          = some ["2024-01-02", "0", "0", "0", "0", "0", "0", "0", "a\"b"]))
    have hlast := congrArg (fun l => l.getLast?) hl
    simp only [intendedFields] at hlast
    have : rowPairedQuote.credit_name = "a\"b" := by
      simpa using hlast
    exact absurd this (by decide)
  · rw [hdb]
    rfl
  · rw [hdb]

end EggInventory
